import Mathlib

/-!
Verification of `keystone.py` (TMF8820/21/28 keystone-correction demo).

The development shallowly embeds the program's logic:

* The geometry engine `calc_angle` works on Python floats; it is embedded
  over the real numbers.  A call that would raise an uncaught exception
  (`math.sqrt` of a negative number, `math.asin` outside `[-1, 1]`) is
  modelled as `none`; the `except ZeroDivisionError: return 0` fallback
  yields `some 0`.
* The protocol reader `get_data_from_EVM_GUI` consumes chunks delivered by
  `sock.recv`.  Python strings are modelled as `List Char` (code points),
  and `str.split` / `int` are re-implemented below following CPython's
  semantics on the protocol's plain ASCII records.
* Python's arbitrary-precision `int` is `Int`; the one true division
  (`sum(...)/8`, producing a float) is modelled exactly over `ℚ`.
-/

namespace Keystone

/-! ## Geometry engine (`calc_angle`) -/

/-- Model of `math.radians(d) = d * pi / 180`. -/
noncomputable def radians (d : ℝ) : ℝ := d * Real.pi / 180

/-- Model of `math.degrees(x) = x * 180 / pi`. -/
noncomputable def degrees (x : ℝ) : ℝ := x * 180 / Real.pi

/-- The radicand `center**2 + edge**2 - 2*center*edge*math.cos(math.radians(alpha))`
from the law of cosines step of `calc_angle`. -/
noncomputable def radExpr (center edge alpha : ℝ) : ℝ :=
  center ^ 2 + edge ^ 2 - 2 * center * edge * Real.cos (radians alpha)

/-- The local `a` of `calc_angle`: third side of the triangle. -/
noncomputable def triSide (center edge alpha : ℝ) : ℝ :=
  Real.sqrt (radExpr center edge alpha)

/-- The argument `edge / a * math.sin(math.radians(alpha))` passed to `math.asin`. -/
noncomputable def sinGamma (center edge alpha : ℝ) : ℝ :=
  edge / triSide center edge alpha * Real.sin (radians alpha)

/-- Value computed by the non-exceptional path of `calc_angle`:
`phi = 90 - gamma`, negated when `edge**2 > center**2 + a**2`. -/
noncomputable def mainPhi (center edge alpha : ℝ) : ℝ :=
  if edge ^ 2 > center ^ 2 + triSide center edge alpha ^ 2 then
    -(90 - degrees (Real.arcsin (sinGamma center edge alpha)))
  else
    90 - degrees (Real.arcsin (sinGamma center edge alpha))

/-- Model of `calc_angle(center, edge, alpha)`.

* `math.sqrt` of a negative radicand raises `ValueError`, which the
  function does not catch: `none`.
* if `a = 0`, the division `edge / a` raises `ZeroDivisionError`, caught
  by the `except` clause: `some 0`.
* `math.asin` of an argument outside `[-1, 1]` raises `ValueError`,
  which the function does not catch: `none`.
* otherwise the computed `phi` is returned. -/
noncomputable def calc_angle (center edge alpha : ℝ) : Option ℝ :=
  if radExpr center edge alpha < 0 then none
  else if triSide center edge alpha = 0 then some 0
  else if sinGamma center edge alpha < -1 ∨ 1 < sinGamma center edge alpha then none
  else some (mainPhi center edge alpha)

/-! ## Protocol reader (`get_data_from_EVM_GUI`)

Python strings are modelled as `List Char`.  `RecvEvent` is one outcome of
`sock.recv(10000)`: either a decoded chunk of text or a `socket.timeout`. -/

/-- CPython whitespace stripped by `int(str)`. -/
def isSpace (c : Char) : Bool :=
  c = ' ' || c = '\t' || c = '\n' || c = '\r' || c = '\x0b' || c = '\x0c'

/-- Decimal digit run accumulator for `pyInt`. -/
def digitsAux : List Char → Nat → Option Nat
  | [], acc => some acc
  | c :: rest, acc =>
    if c.isDigit then digitsAux rest (acc * 10 + (c.toNat - 48)) else none

/-- Model of Python `int(s)` on the protocol's plain ASCII fields: strip
whitespace, optional sign, then a nonempty run of decimal digits; anything
else raises `ValueError`, modelled as `none`. -/
def pyInt (s : List Char) : Option Int :=
  let t := ((s.dropWhile isSpace).reverse.dropWhile isSpace).reverse
  match t with
  | '-' :: ds => if ds = [] then none else (digitsAux ds 0).map fun n => -(n : Int)
  | '+' :: ds => if ds = [] then none else (digitsAux ds 0).map fun n => (n : Int)
  | ds => if ds = [] then none else (digitsAux ds 0).map fun n => (n : Int)

/-- Python `item.split(';')`: leftmost, non-overlapping, keeps empty pieces. -/
def splitSemi : List Char → List (List Char)
  | [] => [[]]
  | c :: rest =>
    if c = ';' then [] :: splitSemi rest
    else
      match splitSemi rest with
      | [] => [[c]]
      | h :: t => (c :: h) :: t

/-- Python `s.split('\r\n')`: leftmost, non-overlapping, keeps empty pieces. -/
def splitCRLF : List Char → List (List Char)
  | [] => [[]]
  | '\r' :: '\n' :: rest => [] :: splitCRLF rest
  | c :: rest =>
    match splitCRLF rest with
    | [] => [[c]]
    | h :: t => (c :: h) :: t

/-- Python `max(list)` (`ValueError` on an empty list, modelled as `none`). -/
def pyMax : List Int → Option Int
  | [] => none
  | x :: rest => some (rest.foldl max x)

/-- Model of `[int(x) for x in fields]`: first failing conversion raises `ValueError`. -/
def parseInts : List (List Char) → Option (List Int)
  | [] => some []
  | x :: rest =>
    match pyInt x, parseInts rest with
    | some v, some vs => some (v :: vs)
    | _, _ => none

/-- The value `get_data_from_EVM_GUI` returns.  The function returns from
exactly two places:

* `snapshot xtalk background iterations obj` models
  `(f'XTalk {xtalk} BG {background}', xtalk, background, iterations, obj)` —
  the description string is the rendering of the `xtalk` and `background`
  fields carried here;
* `noDevice` models `('No device connected', 0, 0, 0, None)`. -/
inductive RetVal where
  | snapshot (xtalk : List Int) (background : List ℚ) (iterations : Int) (obj : List Int)
  | noDevice
deriving DecidableEq

/-- The reader's mutable state: the global `tof_id` (a `None`-initialized
Python global) and the locals `xtalk`, `background`, `iterations`. -/
structure LoopState where
  tof_id : Option (List Char)
  xtalk : List Int
  background : List ℚ
  iterations : Int
deriving DecidableEq

/-- One outcome of `sock.recv`. -/
inductive RecvEvent where
  | recv (s : List Char)
  | timeout

/-- Body of `for item in entries`: the inner `try` block.  The `Bool` records
whether a `ValueError`/`IndexError` was raised and caught by the `except`
clause (`pass`).  The four tag tests are separate `if`s in the source, but
their conditions are mutually exclusive, so they are nested here.  The zone
index `entry` parsed from `data[0][7]` is a single decimal digit, hence
`0 ≤ entry ≤ 9 < len(xtalk)` and the list assignments never fail. -/
def processLine (st : LoopState) (item : List Char) : LoopState × Option RetVal × Bool :=
  let data := splitSemi item
  let d0 := data.headD []
  if d0 = "#VER".data then
    match data[1]?, data[2]?, data[3]? with
    | some f1, some f2, some f3 =>
      ({ st with tof_id := some ("TMF882X ID ".data ++ f1 ++ " - App ".data ++ f2 ++
          " - Drv ".data ++ f3) }, none, false)
    | _, _, _ => (st, none, true)
  else if d0.take 6 = "#HLONG".data then
    match d0[7]? with
    | none => (st, none, true)
    | some c =>
      match pyInt [c] with
      | none => (st, none, true)
      | some entry =>
        match parseInts (data.drop 1) with
        | none => (st, none, true)
        | some pt_hist =>
          match pyMax ((pt_hist.drop 5).take 15) with
          | none => (st, none, true)
          | some m =>
            ({ st with
                xtalk := st.xtalk.set entry.toNat m,
                background := st.background.set entry.toNat
                  (((pt_hist.take 8).sum : ℚ) / 8) }, none, false)
  else if d0 = "#OBJ".data then
    match parseInts (data.drop 5) with
    | none => (st, none, true)
    | some obj => (st, some (RetVal.snapshot st.xtalk st.background st.iterations obj), false)
  else if d0 = "#ITT".data then
    match data[2]? with
    | none => (st, none, true)
    | some f =>
      match pyInt f with
      | none => (st, none, true)
      | some n => ({ st with iterations := n }, none, false)
  else (st, none, false)

/-- The `for item in entries` loop: a `return` inside it exits the whole call,
skipping the remaining entries. -/
def processLines (st : LoopState) : List (List Char) → LoopState × Option RetVal
  | [] => (st, none)
  | item :: rest =>
    match processLine st item with
    | (st', some r, _) => (st', some r)
    | (st', none, _) => processLines st' rest

/-- The `while True` receive loop.  A `socket.timeout` sets `tof_id = ''` and
returns the disconnected tuple.  `none` means every supplied event was
consumed without a `return` (the Python loop would still be blocked). -/
def runLoop (st : LoopState) : List RecvEvent → Option (LoopState × RetVal)
  | [] => none
  | RecvEvent.recv s :: rest =>
    match processLines st (splitCRLF s) with
    | (st', some r) => some (st', r)
    | (st', none) => runLoop st' rest
  | RecvEvent.timeout :: _ =>
    some ({ st with tof_id := some [] }, RetVal.noDevice)

/-- Local-variable initialization at the top of `get_data_from_EVM_GUI`:
`xtalk = [0]*10`, `background = [0]*10`, `iterations = 0`, with `tid` the
global `tof_id` at entry. -/
def initState (tid : Option (List Char)) : LoopState :=
  { tof_id := tid, xtalk := List.replicate 10 0, background := List.replicate 10 0,
    iterations := 0 }

/-- Model of `get_data_from_EVM_GUI(sock)`, with the socket abstracted to the list of
`recv` outcomes it delivers.  The result carries the final state (whose
`tof_id` component is the global after the call) and the returned tuple. -/
def get_data_from_EVM_GUI (tid : Option (List Char)) (events : List RecvEvent) :
    Option (LoopState × RetVal) :=
  runLoop (initState tid) events

/-- State after processing a prefix of events on which no `return` fires:
`none` if some event triggered a `return` (or was a timeout). -/
def consume (st : LoopState) : List RecvEvent → Option LoopState
  | [] => some st
  | RecvEvent.recv s :: rest =>
    match processLines st (splitCRLF s) with
    | (st', none) => consume st' rest
    | (_, some _) => none
  | RecvEvent.timeout :: _ => none

/-- Model of `pick_best(obj)`: compares `obj[1]` with `obj[3]` and returns `obj[0]` or
`obj[2]`.  An `IndexError` (list shorter than 4) propagates to the caller,
modelled as `none`. -/
def pick_best (obj : List Int) : Option Int :=
  match obj[1]?, obj[3]? with
  | some c1, some c2 => if c1 > c2 then obj[0]? else obj[2]?
  | _, _ => none

/-- Lemma: `parseInts` returns one integer per input field. -/
lemma parseInts_length : ∀ (l : List (List Char)) (r : List Int),
    parseInts l = some r → r.length = l.length := by
  intro l
  induction l with
  | nil =>
    intro r h
    simp only [parseInts, Option.some.injEq] at h
    subst h
    rfl
  | cons x xs ih =>
    intro r h
    unfold parseInts at h
    cases hx : pyInt x with
    | none => rw [hx] at h; simp at h
    | some v =>
      rw [hx] at h
      cases hr : parseInts xs with
      | none => rw [hr] at h; simp at h
      | some vs =>
        rw [hr] at h
        simp only [Option.some.injEq] at h
        subst h
        simp [ih vs hr]

/-- Claim C2: `calc_angle(0, 0, alpha)` returns exactly 0 for every alpha, and
whenever the derived triangle side `a` evaluates to zero (with the square root
itself defined), the function returns 0 via the `ZeroDivisionError` fallback
instead of propagating a division fault. -/
theorem calc_angle_degenerate_zero :
    (∀ alpha : ℝ, calc_angle 0 0 alpha = some 0) ∧
    (∀ center edge alpha : ℝ, 0 ≤ radExpr center edge alpha →
      triSide center edge alpha = 0 → calc_angle center edge alpha = some 0) := by
  constructor
  · intro alpha
    have hrad : radExpr 0 0 alpha = 0 := by simp [radExpr]
    have hside : triSide 0 0 alpha = 0 := by simp [triSide, hrad, Real.sqrt_zero]
    simp [calc_angle, hrad, hside]
  · intro center edge alpha h0 hside
    simp [calc_angle, not_lt.mpr h0, hside]

/-- Witness for C2 at a nondegenerate-looking input where `a = 0`:
`calc_angle(1, 1, 0)` (coincident measurement directions) returns 0. -/
theorem calc_angle_degenerate_zero_witness : calc_angle 1 1 0 = some 0 := by
  have hrad : radExpr 1 1 0 = 0 := by
    simp [radExpr, radians, Real.cos_zero]
    norm_num
  exact calc_angle_degenerate_zero.2 1 1 0 (le_of_eq hrad.symm)
    (by simp [triSide, hrad, Real.sqrt_zero])

/-- Claim C3 counterexample: on a confidence tie (`c1 = c2 = 5`) `pick_best`
returns the secondary reading `d2 = 90`, not the primary `d1 = 10`; ties do
not favor the primary. -/
theorem pick_best_tie_cex : pick_best [10, 5, 90, 5] = some 90 ∧ (90 : Int) ≠ 10 := by
  decide

/-- Claim C3 (amended): `pick_best` returns the primary distance `d1` when
`c1 > c2` and the secondary distance `d2` when `c2 > c1`; on a confidence tie
it returns the secondary reading `d2` (ties favor the secondary, since the
code tests `obj[1] > obj[3]`). -/
theorem pick_best_select (d1 c1 d2 c2 : Int) :
    pick_best [d1, c1, d2, c2] = some (if c1 ≤ c2 then d2 else d1) := by
  unfold pick_best
  simp only [List.getElem?_cons_succ, List.getElem?_cons_zero]
  split_ifs with h h'
  · omega
  · rfl
  · rfl
  · omega

/-- Claim C8: a protocol line whose processing raises `ValueError`/`IndexError`
(a malformed or header line failing numeric parsing) is silently skipped: it
produces no return value, leaves the state untouched, and the read loop
continues with the subsequent lines of the cycle. -/
theorem malformed_line_skipped (st : LoopState) (item : List Char)
    (rest : List (List Char)) (h : (processLine st item).2.2 = true) :
    processLine st item = (st, none, true) ∧
      processLines st (item :: rest) = processLines st rest := by
  have h1 : processLine st item = (st, none, true) := by
    revert h
    unfold processLine
    dsimp only
    repeat' split
    all_goals intro h
    all_goals first | rfl | simp at h
  refine ⟨h1, ?_⟩
  simp [processLines, h1]

/-- Witness for C8: an `#OBJ` record with a non-numeric payload field fails
integer parsing, is skipped, and does not abort the loop. -/
theorem malformed_line_skipped_witness :
    processLine (initState none) "#OBJ;0;0;0;0;x".data = (initState none, none, true) ∧
      processLines (initState none) ["#OBJ;0;0;0;0;x".data] =
        processLines (initState none) [] :=
  malformed_line_skipped (initState none) "#OBJ;0;0;0;0;x".data [] (by decide)

/-- Claim C9: a per-zone histogram record (`#HLONG` tag, zone given by the
digit at index 7 of the tag) updates that zone's crosstalk estimate to the
maximum of bins 5–19 (`max(pt_hist[5:20])`) and its background estimate to
the average of bins 0–7 (`sum(pt_hist[0:8])/8`); with at least 8 bins the
divisor 8 is exactly the number of averaged bins. -/
theorem histogram_updates_zone (st : LoopState) (item tag : List Char)
    (fields : List (List Char)) (c : Char) (z : Int) (bins : List Int) (m : Int)
    (hsplit : splitSemi item = tag :: fields)
    (htag : tag.take 6 = "#HLONG".data)
    (hc7 : tag[7]? = some c)
    (hz : pyInt [c] = some z)
    (hbins : parseInts fields = some bins)
    (hlen : 8 ≤ bins.length)
    (hm : pyMax ((bins.drop 5).take 15) = some m) :
    processLine st item =
      ({ st with
          xtalk := st.xtalk.set z.toNat m,
          background := st.background.set z.toNat (((bins.take 8).sum : ℚ) / 8) },
        none, false) ∧
      ((bins.take 8).sum : ℚ) / 8 = ((bins.take 8).sum : ℚ) / ((bins.take 8).length : ℚ) := by
  have hver : tag ≠ "#VER".data := by
    intro hEq
    rw [hEq] at htag
    exact absurd htag (by decide)
  constructor
  · unfold processLine
    rw [hsplit]
    simp only [List.headD_cons, List.drop_succ_cons, List.drop_zero]
    rw [if_neg hver, if_pos htag]
    simp only [hc7, hz, hbins, hm]
  · have h8 : (bins.take 8).length = 8 := by
      simp [List.length_take, min_eq_left hlen]
    rw [h8]
    norm_num

/-- Witness for C9: zone 3 histogram with bins 1..10; crosstalk becomes
`max [6,7,8,9,10] = 10`, background becomes `(1+...+8)/8 = 36/8`. -/
theorem histogram_updates_zone_witness :
    processLine (initState none) "#HLONG03;1;2;3;4;5;6;7;8;9;10".data =
      ({ initState none with
          xtalk := ((List.replicate 10 0).set 3 10 : List Int),
          background := ((List.replicate 10 0).set 3
            ((((([1,2,3,4,5,6,7,8,9,10] : List Int).take 8).sum : ℚ)) / 8) : List ℚ) },
        none, false) ∧
      (((([1,2,3,4,5,6,7,8,9,10] : List Int).take 8).sum : ℚ)) / 8 =
        (((([1,2,3,4,5,6,7,8,9,10] : List Int).take 8).sum : ℚ)) /
          (((([1,2,3,4,5,6,7,8,9,10] : List Int).take 8).length : ℚ)) :=
  histogram_updates_zone (initState none) "#HLONG03;1;2;3;4;5;6;7;8;9;10".data
    "#HLONG03".data ["1".data, "2".data, "3".data, "4".data, "5".data,
      "6".data, "7".data, "8".data, "9".data, "10".data]
    '3' 3 [1,2,3,4,5,6,7,8,9,10] 10
    (by decide) (by decide) (by decide) (by decide) (by decide) (by decide) (by decide)

/-- The receive loop on a prefix that triggers no return, followed by a
timeout: helper for claim C4. -/
lemma runLoop_timeout (pre : List RecvEvent) : ∀ (st st' : LoopState)
    (rest : List RecvEvent), consume st pre = some st' →
    runLoop st (pre ++ RecvEvent.timeout :: rest) =
      some ({ st' with tof_id := some [] }, RetVal.noDevice) := by
  induction pre with
  | nil =>
    intro st st' rest h
    simp only [consume, Option.some.injEq] at h
    subst h
    simp [runLoop]
  | cons e pre ih =>
    intro st st' rest h
    cases e with
    | recv s =>
      unfold consume at h
      rcases hpl : processLines st (splitCRLF s) with ⟨st1, ro⟩
      rw [hpl] at h
      cases ro with
      | some r => simp at h
      | none =>
        show (match processLines st (splitCRLF s) with
          | (st', some r) => some (st', r)
          | (st', none) => runLoop st' (pre ++ RecvEvent.timeout :: rest)) = _
        rw [hpl]
        exact ih st1 st' rest h
    | timeout => simp [consume] at h

/-- Claim C4: if no terminating `#OBJ` record arrives before the socket
timeout, `get_data_from_EVM_GUI` returns the defined disconnected result
`('No device connected', 0, 0, 0, None)` — no object payload, zeroed
crosstalk/background/iteration scalars — with the cached identity `tof_id`
cleared to the empty string, and does not raise. -/
theorem timeout_returns_no_device (tid : Option (List Char)) (st' : LoopState)
    (pre rest : List RecvEvent) (h : consume (initState tid) pre = some st') :
    get_data_from_EVM_GUI tid (pre ++ RecvEvent.timeout :: rest) =
      some ({ st' with tof_id := some [] }, RetVal.noDevice) := by
  unfold get_data_from_EVM_GUI
  exact runLoop_timeout pre (initState tid) st' rest h

/-- Witness for C4: a version record arrives (caching an identity string) and
then the read times out; the call returns the disconnected tuple with the
identity cleared. -/
theorem timeout_returns_no_device_witness :
    get_data_from_EVM_GUI none
        [RecvEvent.recv "#VER;1;2;3".data, RecvEvent.timeout] =
      some ({ initState none with tof_id := some [] }, RetVal.noDevice) :=
  timeout_returns_no_device none
    { initState none with tof_id := some "TMF882X ID 1 - App 2 - Drv 3".data }
    [RecvEvent.recv "#VER;1;2;3".data] [] (by decide)

/-- Claim C5: when the chunk's first line is a terminating `#OBJ` record whose
trailing fields (from index 5 on) all parse as integers,
`get_data_from_EVM_GUI` returns immediately — ignoring the remaining buffered
lines of the chunk and all later events — with the snapshot's object payload
exactly those trailing integers; 36 trailing fields populate 9 zones of four
fields each, in the record's (row-major) order. -/
theorem obj_record_snapshot (tid : Option (List Char)) (s item : List Char)
    (moreLines : List (List Char)) (more : List RecvEvent) (vals : List Int)
    (hsplit : splitCRLF s = item :: moreLines)
    (htag : (splitSemi item).headD [] = "#OBJ".data)
    (hvals : parseInts ((splitSemi item).drop 5) = some vals)
    (hlen : ((splitSemi item).drop 5).length = 36) :
    get_data_from_EVM_GUI tid (RecvEvent.recv s :: more) =
      some (initState tid,
        RetVal.snapshot (List.replicate 10 0) (List.replicate 10 0) 0 vals) ∧
      vals.length = 9 * 4 := by
  have hline : processLine (initState tid) item =
      (initState tid, some (RetVal.snapshot (List.replicate 10 0)
        (List.replicate 10 0) 0 vals), false) := by
    unfold processLine
    dsimp only
    rw [htag]
    rw [if_neg (by decide : ¬("#OBJ".data = "#VER".data)),
      if_neg (by decide : ¬(("#OBJ".data : List Char).take 6 = "#HLONG".data)),
      if_pos rfl]
    simp only [hvals, initState]
  constructor
  · unfold get_data_from_EVM_GUI runLoop
    rw [hsplit]
    simp [processLines, hline]
  · rw [parseInts_length _ _ hvals, hlen]

/-- Witness for C5: a full 41-field `#OBJ` record (tag, 4 meta fields, 36
payload fields) returns at once with the 36 integers as the object payload. -/
theorem obj_record_snapshot_witness :
    get_data_from_EVM_GUI none
        [RecvEvent.recv
          "#OBJ;0;0;0;0;100;99;0;0;101;98;0;0;102;97;0;0;103;96;0;0;104;95;0;0;105;94;0;0;106;93;0;0;107;92;0;0;108;91;0;0".data] =
      some (initState none,
        RetVal.snapshot (List.replicate 10 0) (List.replicate 10 0) 0
          [100,99,0,0,101,98,0,0,102,97,0,0,103,96,0,0,104,95,0,0,
           105,94,0,0,106,93,0,0,107,92,0,0,108,91,0,0]) ∧
      ([100,99,0,0,101,98,0,0,102,97,0,0,103,96,0,0,104,95,0,0,
        105,94,0,0,106,93,0,0,107,92,0,0,108,91,0,0] : List Int).length = 9 * 4 :=
  obj_record_snapshot none
    "#OBJ;0;0;0;0;100;99;0;0;101;98;0;0;102;97;0;0;103;96;0;0;104;95;0;0;105;94;0;0;106;93;0;0;107;92;0;0;108;91;0;0".data
    "#OBJ;0;0;0;0;100;99;0;0;101;98;0;0;102;97;0;0;103;96;0;0;104;95;0;0;105;94;0;0;106;93;0;0;107;92;0;0;108;91;0;0".data
    [] []
    [100,99,0,0,101,98,0,0,102,97,0,0,103,96,0,0,104,95,0,0,
     105,94,0,0,106,93,0,0,107,92,0,0,108,91,0,0]
    (by decide) (by decide) (by decide) (by decide)

/-! ## Geometry lemmas -/

lemma radians_pos {alpha : ℝ} (h : 0 < alpha) : 0 < radians alpha :=
  div_pos (mul_pos h Real.pi_pos) (by norm_num)

lemma radians_lt_pi {alpha : ℝ} (h : alpha < 180) : radians alpha < Real.pi := by
  unfold radians
  rw [div_lt_iff₀ (by norm_num : (0:ℝ) < 180)]
  nlinarith [Real.pi_pos]

lemma radians_lt_pi_div_two {alpha : ℝ} (h : alpha < 90) :
    radians alpha < Real.pi / 2 := by
  unfold radians
  rw [div_lt_div_iff₀ (by norm_num : (0:ℝ) < 180) (by norm_num : (0:ℝ) < 2)]
  nlinarith [Real.pi_pos]

lemma cos_radians_lt_one {alpha : ℝ} (h1 : 0 < alpha) (h2 : alpha < 180) :
    Real.cos (radians alpha) < 1 := by
  have h := Real.cos_lt_cos_of_nonneg_of_le_pi (le_refl (0:ℝ))
    (le_of_lt (radians_lt_pi h2)) (radians_pos h1)
  simpa using h

lemma sin_radians_pos {alpha : ℝ} (h1 : 0 < alpha) (h2 : alpha < 180) :
    0 < Real.sin (radians alpha) :=
  Real.sin_pos_of_pos_of_lt_pi (radians_pos h1) (radians_lt_pi h2)

/-- Under the precondition the radicand of the law-of-cosines step is
strictly positive. -/
lemma radExpr_pos {center edge alpha : ℝ} (hc : 0 < center) (he : 0 < edge)
    (h1 : 0 < alpha) (h2 : alpha < 180) : 0 < radExpr center edge alpha := by
  have hcos := cos_radians_lt_one h1 h2
  unfold radExpr
  nlinarith [sq_nonneg (center - edge),
    mul_pos (mul_pos hc he) (sub_pos.mpr hcos)]

lemma triSide_pos {center edge alpha : ℝ} (hc : 0 < center) (he : 0 < edge)
    (h1 : 0 < alpha) (h2 : alpha < 180) : 0 < triSide center edge alpha := by
  unfold triSide
  exact Real.sqrt_pos.mpr (radExpr_pos hc he h1 h2)

lemma sinGamma_pos {center edge alpha : ℝ} (hc : 0 < center) (he : 0 < edge)
    (h1 : 0 < alpha) (h2 : alpha < 180) : 0 < sinGamma center edge alpha := by
  unfold sinGamma
  exact mul_pos (div_pos he (triSide_pos hc he h1 h2)) (sin_radians_pos h1 h2)

/-- The argument handed to `math.asin` never exceeds 1: with
`s² + cos² = 1`, `radExpr - (edge·sin)² = (center - edge·cos)² ≥ 0`. -/
lemma sinGamma_le_one {center edge alpha : ℝ} (hc : 0 < center) (he : 0 < edge)
    (h1 : 0 < alpha) (h2 : alpha < 180) : sinGamma center edge alpha ≤ 1 := by
  have ha := triSide_pos hc he h1 h2
  have hsin := sin_radians_pos h1 h2
  have hpy := Real.sin_sq_add_cos_sq (radians alpha)
  have he2 : edge ^ 2 * (Real.sin (radians alpha) ^ 2 + Real.cos (radians alpha) ^ 2)
      = edge ^ 2 := by rw [hpy]; ring
  have hsq : (edge * Real.sin (radians alpha)) ^ 2 ≤ radExpr center edge alpha := by
    unfold radExpr
    nlinarith [sq_nonneg (center - edge * Real.cos (radians alpha)), he2]
  have hle : edge * Real.sin (radians alpha) ≤ triSide center edge alpha := by
    unfold triSide
    exact (Real.le_sqrt (mul_nonneg he.le hsin.le)
      (radExpr_pos hc he h1 h2).le).mpr hsq
  unfold sinGamma
  rw [div_mul_eq_mul_div]
  exact (div_le_one ha).mpr hle

/-- Under the precondition none of the three exceptional branches of
`calc_angle` fires. -/
lemma calc_angle_eq_mainPhi {center edge alpha : ℝ} (hc : 0 < center)
    (he : 0 < edge) (h1 : 0 < alpha) (h2 : alpha < 180) :
    calc_angle center edge alpha = some (mainPhi center edge alpha) := by
  have hrad := radExpr_pos hc he h1 h2
  have ha := triSide_pos hc he h1 h2
  have hx0 := sinGamma_pos hc he h1 h2
  have hx1 := sinGamma_le_one hc he h1 h2
  have h3 : ¬(sinGamma center edge alpha < -1 ∨ 1 < sinGamma center edge alpha) := by
    push_neg
    exact ⟨by linarith, hx1⟩
  unfold calc_angle
  rw [if_neg (not_lt.mpr hrad.le), if_neg (ne_of_gt ha), if_neg h3]

lemma degrees_arcsin_pos {center edge alpha : ℝ} (hc : 0 < center) (he : 0 < edge)
    (h1 : 0 < alpha) (h2 : alpha < 180) :
    0 < degrees (Real.arcsin (sinGamma center edge alpha)) := by
  have h := Real.arcsin_pos.mpr (sinGamma_pos hc he h1 h2)
  unfold degrees
  exact div_pos (mul_pos h (by norm_num)) Real.pi_pos

lemma degrees_arcsin_le_90 (x : ℝ) : degrees (Real.arcsin x) ≤ 90 := by
  have h := Real.arcsin_le_pi_div_two x
  unfold degrees
  rw [div_le_iff₀ Real.pi_pos]
  linarith

/-- Claim C1: for positive `center`, `edge` and `alpha` strictly between 0°
and 180°, `calc_angle` returns a value strictly between −90° and 90°. -/
theorem calc_angle_range (center edge alpha : ℝ) (hc : 0 < center) (he : 0 < edge)
    (h1 : 0 < alpha) (h2 : alpha < 180) :
    ∃ phi, calc_angle center edge alpha = some phi ∧ -90 < phi ∧ phi < 90 := by
  refine ⟨mainPhi center edge alpha, calc_angle_eq_mainPhi hc he h1 h2, ?_, ?_⟩ <;>
  · have hg1 := degrees_arcsin_pos hc he h1 h2
    have hg2 := degrees_arcsin_le_90 (sinGamma center edge alpha)
    unfold mainPhi
    split_ifs <;> linarith

/-- Witness for C1 at `center = 1000`, `edge = 1500`, `alpha = 11`. -/
theorem calc_angle_range_witness :
    ∃ phi, calc_angle 1000 1500 11 = some phi ∧ -90 < phi ∧ phi < 90 :=
  calc_angle_range 1000 1500 11 (by norm_num) (by norm_num) (by norm_num)
    (by norm_num)

/-- Claim C10: under the precondition the derived triangle side `a` is
strictly positive and `edge·sin(alpha)/a ≤ 1`, so neither the division nor
the inverse sine faults: the `ZeroDivisionError` fallback branch is not
taken and no math-domain error escapes — `calc_angle` returns the value of
its main computation path. -/
theorem calc_angle_no_fault (center edge alpha : ℝ) (hc : 0 < center)
    (he : 0 < edge) (h1 : 0 < alpha) (h2 : alpha < 180) :
    0 < triSide center edge alpha ∧ sinGamma center edge alpha ≤ 1 ∧
      calc_angle center edge alpha = some (mainPhi center edge alpha) :=
  ⟨triSide_pos hc he h1 h2, sinGamma_le_one hc he h1 h2,
    calc_angle_eq_mainPhi hc he h1 h2⟩

/-- Witness for C10 at `center = 2`, `edge = 3`, `alpha = 45`. -/
theorem calc_angle_no_fault_witness :
    0 < triSide 2 3 45 ∧ sinGamma 2 3 45 ≤ 1 ∧
      calc_angle 2 3 45 = some (mainPhi 2 3 45) :=
  calc_angle_no_fault 2 3 45 (by norm_num) (by norm_num) (by norm_num)
    (by norm_num)

/-- Equal distances solve the isosceles triangle: `calc_angle(c, c, alpha)`
returns exactly `alpha / 2` (gamma = 90° − alpha/2, phi = alpha/2, and the
Pythagorean sign test does not fire). -/
lemma calc_angle_eq_self {c alpha : ℝ} (hc : 0 < c) (h1 : 0 < alpha)
    (h2 : alpha < 180) : calc_angle c c alpha = some (alpha / 2) := by
  have hθ1 : 0 < radians alpha := radians_pos h1
  have hθ2 : radians alpha < Real.pi := radians_lt_pi h2
  have hs : 0 < Real.sin (radians alpha / 2) :=
    Real.sin_pos_of_pos_of_lt_pi (by linarith) (by linarith [Real.pi_pos])
  have hcosθ : Real.cos (radians alpha) = 1 - 2 * Real.sin (radians alpha / 2) ^ 2 := by
    have h := Real.cos_two_mul (radians alpha / 2)
    have h2' : (2:ℝ) * (radians alpha / 2) = radians alpha := by ring
    rw [h2'] at h
    have hpy := Real.sin_sq_add_cos_sq (radians alpha / 2)
    linarith
  have hrad : radExpr c c alpha = (2 * c * Real.sin (radians alpha / 2)) ^ 2 := by
    unfold radExpr
    rw [hcosθ]
    ring
  have ha : triSide c c alpha = 2 * c * Real.sin (radians alpha / 2) := by
    unfold triSide
    rw [hrad, Real.sqrt_sq (by positivity)]
  have hsinθ : Real.sin (radians alpha)
      = 2 * Real.sin (radians alpha / 2) * Real.cos (radians alpha / 2) := by
    have h := Real.sin_two_mul (radians alpha / 2)
    have h2' : (2:ℝ) * (radians alpha / 2) = radians alpha := by ring
    rw [h2'] at h
    exact h
  have hsg : sinGamma c c alpha = Real.cos (radians alpha / 2) := by
    unfold sinGamma
    rw [ha, hsinθ]
    have hc0 : c ≠ 0 := ne_of_gt hc
    have hs0 : Real.sin (radians alpha / 2) ≠ 0 := ne_of_gt hs
    field_simp
    ring
  have harc : Real.arcsin (Real.cos (radians alpha / 2))
      = Real.pi / 2 - radians alpha / 2 := by
    rw [← Real.sin_pi_div_two_sub]
    exact Real.arcsin_sin (by linarith [Real.pi_pos]) (by linarith)
  have hcond : ¬(c ^ 2 > c ^ 2 + triSide c c alpha ^ 2) := by
    have := sq_nonneg (triSide c c alpha)
    linarith
  have hmp : mainPhi c c alpha = alpha / 2 := by
    unfold mainPhi
    rw [if_neg hcond, hsg, harc]
    unfold degrees radians
    have hpi := Real.pi_ne_zero
    field_simp
    ring
  rw [calc_angle_eq_mainPhi hc hc h1 h2, hmp]

/-- Claim C6 counterexample: the worked example `center = 1000`,
`edge = 1000`, `alpha = 11°` returns `phi = 5.5°` — the half separation
angle — which is not near-zero within any floating tolerance below 1. -/
theorem worked_example_cex :
    calc_angle 1000 1000 11 = some (11 / 2) ∧ (1:ℝ) ≤ 11 / 2 := by
  refine ⟨?_, by norm_num⟩
  exact calc_angle_eq_self (by norm_num) (by norm_num) (by norm_num)

/-- Claim C6 (amended): for equal center and edge distances, `calc_angle`
returns `alpha / 2` exactly; in particular the worked example
`(1000, 1000, 11°)` yields `phi = 5.5°`, not a near-zero angle. -/
theorem calc_angle_equal_distances (center alpha : ℝ) (hc : 0 < center)
    (h1 : 0 < alpha) (h2 : alpha < 180) :
    calc_angle center center alpha = some (alpha / 2) :=
  calc_angle_eq_self hc h1 h2

/-- Witness for the amended C6 at the worked example's numbers. -/
theorem calc_angle_equal_distances_witness :
    calc_angle 1000 1000 11 = some (11 / 2) :=
  calc_angle_equal_distances 1000 11 (by norm_num) (by norm_num) (by norm_num)

/-- Sign characterization of `calc_angle` for separations below 90°:
the sign of the returned angle is the sign of `center − edge·cos(alpha)`. -/
lemma calc_angle_sign {center edge alpha : ℝ} (hc : 0 < center) (he : 0 < edge)
    (h1 : 0 < alpha) (h2 : alpha < 90) :
    ∃ phi, calc_angle center edge alpha = some phi ∧
      (phi < 0 ↔ center < edge * Real.cos (radians alpha)) ∧
      (0 < phi ↔ edge * Real.cos (radians alpha) < center) := by
  have h2' : alpha < 180 := by linarith
  have hrad := radExpr_pos hc he h1 h2'
  have ha := triSide_pos hc he h1 h2'
  have hsin := sin_radians_pos h1 h2'
  have hasq : triSide center edge alpha ^ 2 = radExpr center edge alpha := by
    unfold triSide
    exact Real.sq_sqrt hrad.le
  have hcond : (edge ^ 2 > center ^ 2 + triSide center edge alpha ^ 2) ↔
      center < edge * Real.cos (radians alpha) := by
    rw [hasq]
    unfold radExpr
    constructor <;> intro h <;> nlinarith [hc]
  have hγle := degrees_arcsin_le_90 (sinGamma center edge alpha)
  have hstrict : center ≠ edge * Real.cos (radians alpha) →
      degrees (Real.arcsin (sinGamma center edge alpha)) < 90 := by
    intro hne0
    have hne : center - edge * Real.cos (radians alpha) ≠ 0 := sub_ne_zero.mpr hne0
    have hposq : 0 < (center - edge * Real.cos (radians alpha)) ^ 2 :=
      lt_of_le_of_ne (sq_nonneg _) (Ne.symm (pow_ne_zero 2 hne))
    have hpy := Real.sin_sq_add_cos_sq (radians alpha)
    have he2 : edge ^ 2 * (Real.sin (radians alpha) ^ 2 +
        Real.cos (radians alpha) ^ 2) = edge ^ 2 := by rw [hpy]; ring
    have hlt : (edge * Real.sin (radians alpha)) ^ 2 < radExpr center edge alpha := by
      unfold radExpr
      nlinarith [hposq, he2]
    have hlt' : edge * Real.sin (radians alpha) < triSide center edge alpha := by
      unfold triSide
      exact (Real.lt_sqrt (mul_nonneg he.le hsin.le)).mpr hlt
    have hx1 : sinGamma center edge alpha < 1 := by
      unfold sinGamma
      rw [div_mul_eq_mul_div]
      exact (div_lt_one ha).mpr hlt'
    have harc := Real.arcsin_lt_pi_div_two.mpr hx1
    unfold degrees
    rw [div_lt_iff₀ Real.pi_pos]
    linarith
  have hγeq : center = edge * Real.cos (radians alpha) →
      degrees (Real.arcsin (sinGamma center edge alpha)) = 90 := by
    intro heq
    have hpy := Real.sin_sq_add_cos_sq (radians alpha)
    have hradeq : radExpr center edge alpha = (edge * Real.sin (radians alpha)) ^ 2 := by
      unfold radExpr
      rw [heq]
      linear_combination (-(edge ^ 2)) * hpy
    have haeq : triSide center edge alpha = edge * Real.sin (radians alpha) := by
      unfold triSide
      rw [hradeq, Real.sqrt_sq (mul_nonneg he.le hsin.le)]
    have hx1 : sinGamma center edge alpha = 1 := by
      unfold sinGamma
      rw [haeq]
      field_simp
    rw [hx1, Real.arcsin_one]
    unfold degrees
    field_simp
    ring
  refine ⟨mainPhi center edge alpha, calc_angle_eq_mainPhi hc he h1 h2', ?_, ?_⟩ <;>
  · rcases lt_trichotomy center (edge * Real.cos (radians alpha)) with hlt | heq | hgt
    · have hγ := hstrict (ne_of_lt hlt)
      have hphi : mainPhi center edge alpha < 0 := by
        unfold mainPhi
        rw [if_pos (hcond.mpr hlt)]
        linarith
      constructor <;> intro h <;> first | exact hlt | exact hphi | linarith
    · have hγ := hγeq heq
      have hphi : mainPhi center edge alpha = 0 := by
        unfold mainPhi
        rw [if_neg (fun h => absurd (hcond.mp h) (by rw [heq]; exact lt_irrefl _)), hγ]
        ring
      constructor <;> intro h <;> linarith
    · have hγ := hstrict (ne_of_gt hgt)
      have hphi : 0 < mainPhi center edge alpha := by
        unfold mainPhi
        rw [if_neg (fun h => absurd (hcond.mp h) (by linarith))]
        linarith
      constructor <;> intro h <;> first | exact hgt | exact hphi | linarith

/-- Claim C7 counterexample: at the configured horizontal separation
`alpha = 33/3 = 11°` and equal distances `center = edge = 1000`, the swapped
call is the very same call and both return the strictly positive angle
`5.5°` — the two results have the same sign, not opposite signs. -/
theorem calc_angle_swap_cex :
    calc_angle 1000 1000 (33 / 3) = some (11 / 2) ∧ (0:ℝ) < 11 / 2 := by
  refine ⟨?_, by norm_num⟩
  have h := @calc_angle_eq_self 1000 (33 / 3) (by norm_num)
    (by norm_num) (by norm_num)
  rw [h]
  norm_num

/-- Claim C7 (amended): for positive distances and a separation below 90°
(both configured separations, 33/3° and 32/3°, qualify), swapping the two
distance arguments flips a negative result to a strictly positive one: if
either order returns a negative angle, the swapped order returns a positive
angle.  (When the two distances are close — e.g. equal — both orders return
nonnegative angles and no sign flip occurs.) -/
theorem calc_angle_swap_flips_negative (center edge alpha : ℝ) (hc : 0 < center)
    (he : 0 < edge) (h1 : 0 < alpha) (h2 : alpha < 90) :
    ∃ p q, calc_angle center edge alpha = some p ∧
      calc_angle edge center alpha = some q ∧
      (p < 0 → 0 < q) ∧ (q < 0 → 0 < p) := by
  obtain ⟨p, hp, hp1, hp2⟩ := calc_angle_sign hc he h1 h2
  obtain ⟨q, hq, hq1, hq2⟩ := calc_angle_sign he hc h1 h2
  have hθ2 := radians_lt_pi_div_two h2
  have hcos1 : Real.cos (radians alpha) < 1 := cos_radians_lt_one h1 (by linarith)
  have hcos0 : 0 < Real.cos (radians alpha) :=
    Real.cos_pos_of_mem_Ioo ⟨by linarith [radians_pos h1, Real.pi_pos], hθ2⟩
  have hcos2 : Real.cos (radians alpha) ^ 2 < 1 := by nlinarith
  refine ⟨p, q, hp, hq, ?_, ?_⟩
  · intro hpneg
    have hlt := hp1.mp hpneg
    have hkey : center * Real.cos (radians alpha) < edge := by
      nlinarith [mul_lt_mul_of_pos_right hlt hcos0, mul_pos he (sub_pos.mpr hcos2)]
    exact hq2.mpr hkey
  · intro hqneg
    have hlt := hq1.mp hqneg
    have hkey : edge * Real.cos (radians alpha) < center := by
      nlinarith [mul_lt_mul_of_pos_right hlt hcos0, mul_pos hc (sub_pos.mpr hcos2)]
    exact hp2.mpr hkey

/-- Witness for the amended C7 at `center = 1000`, `edge = 2000`,
`alpha = 33/3` (the configured left/right separation). -/
theorem calc_angle_swap_flips_negative_witness :
    ∃ p q, calc_angle 1000 2000 (33 / 3) = some p ∧
      calc_angle 2000 1000 (33 / 3) = some q ∧
      (p < 0 → 0 < q) ∧ (q < 0 → 0 < p) :=
  calc_angle_swap_flips_negative 1000 2000 (33 / 3) (by norm_num) (by norm_num)
    (by norm_num) (by norm_num)

end Keystone
